import Mathlib

/-!
Verification development for the `amazon-cognito-auth-ts` repository.

The orchestrator class `CognitoAuth` (src/CognitoAuth.ts) is embedded
shallowly: its mutable fields become a `CognitoAuth` record, every method
becomes a pure function from the record (plus the opaque collaborators:
a JWT claim decoder, the current time, a randomness oracle) to an updated
record together with its observable effects (launched URLs, user-handler
invocations) and its result.

The collaborator classes imported by `CognitoAuth.ts` (`CognitoToken`,
`CognitoRefreshToken`, `CognitoTokenScopes`, `CognitoAuthSession`,
`CognitoConstants`, the storage helper) are not part of the source tree;
they are modelled from the specification where indicated.
-/

/-- Coercion of a nullable JS string into the string JS produces when the
value is interpolated into a template literal or stored: `undefined`
becomes the string "undefined". -/
def jsString : Option String → String
  | none => "undefined"
  | some s => s

/-- JS truthiness test for a nullable string: `undefined`, `null` and the
empty string are falsy. -/
def jsFalsy : Option String → Bool
  | none => true
  | some s => s == ""

/-- JS `Boolean(x)` on an optional boolean: `Boolean(undefined) = false`. -/
def jsBool : Option Bool → Bool
  | none => false
  | some b => b

/-- Characters of a string strictly before the first occurrence of `c`
(the whole string when `c` does not occur), as in `s.split(c)[0]`. -/
def beforeFirstChar (c : Char) : List Char → List Char
  | [] => []
  | x :: xs => if x = c then [] else x :: beforeFirstChar c xs

/-- Characters of a string strictly after the first occurrence of `c`,
or `none` when `c` does not occur, as in `s.split(c)[1]` for a
first-occurrence split. -/
def afterFirstChar (c : Char) : List Char → Option (List Char)
  | [] => none
  | x :: xs => if x = c then some xs else afterFirstChar c xs

/-- Split a character list at every occurrence of `c`, as in JS
`s.split(c)` for a single-character separator. -/
def splitChar (c : Char) : List Char → List (List Char)
  | [] => [[]]
  | x :: xs =>
    let r := splitChar c xs
    if x = c then [] :: r
    else
      match r with
      | [] => [[x]]
      | y :: ys => (x :: y) :: ys

/-- `s.split(c)[0]` at the `String` level. -/
def strBeforeFirst (s : String) (c : Char) : String :=
  String.mk (beforeFirstChar c s.data)

/-- The portion of `s` after the first occurrence of `c`, if any. -/
def strAfterFirst (s : String) (c : Char) : Option String :=
  (afterFirstChar c s.data).map String.mk

/-- JS `s.split(c)` for a one-character separator. -/
def strSplit (s : String) (c : Char) : List String :=
  (splitChar c s.data).map String.mk

/-- The parsed-field mapping produced by the response parsers: a JS `Map`
from parameter name to its (possibly `undefined`) value. -/
abbrev QueryMap : Type := List (String × Option String)

/-- JS `map.set(k, v)`: later insertions overwrite earlier ones. -/
def mapSet (m : QueryMap) (k : String) (v : Option String) : QueryMap :=
  (k, v) :: (m : List (String × Option String)).filter (fun p => p.1 ≠ k)

/-- JS `map.has(k)`. -/
def hasKey (m : QueryMap) (k : String) : Bool :=
  (m : List (String × Option String)).any (fun p => p.1 == k)

/-- JS `map.get(k)`: `none` when the key is absent. -/
def mapGet (m : QueryMap) (k : String) : Option (Option String) :=
  ((m : List (String × Option String)).find? (fun p => p.1 == k)).map (fun p => p.2)

/-- The synchronous key/value storage collaborator, modelled as an
association list of string keys and string values. -/
abbrev Storage : Type := List (String × String)

/-- `storage.getItem(key)`. -/
def Storage.getItem : Storage → String → Option String
  | [], _ => none
  | (k, v) :: rest, key => if k = key then some v else Storage.getItem rest key

/-- `storage.removeItem(key)`. -/
def Storage.removeItem : Storage → String → Storage
  | [], _ => []
  | (k, v) :: rest, key =>
    if k = key then Storage.removeItem rest key
    else (k, v) :: Storage.removeItem rest key

/-- `storage.setItem(key, value)`. -/
def Storage.setItem (s : Storage) (key v : String) : Storage :=
  (key, v) :: s.removeItem key

/-- Upper-case hexadecimal digit of a value below 16. -/
def hexDigit (n : Nat) : Char :=
  if n < 10 then Char.ofNat (48 + n) else Char.ofNat (55 + n)

/-- UTF-8 bytes of a character, as byte values. -/
def utf8Bytes (c : Char) : List Nat :=
  let n := c.toNat
  if n < 128 then [n]
  else if n < 2048 then [192 + n / 64, 128 + n % 64]
  else if n < 65536 then [224 + n / 4096, 128 + (n / 64) % 64, 128 + n % 64]
  else [240 + n / 262144, 128 + (n / 4096) % 64, 128 + (n / 64) % 64, 128 + n % 64]

/-- Whether a byte is left unescaped by JS `encodeURIComponent`:
ASCII letters, digits, and `- _ . ! ~ * ' ( )`. -/
def uriUnreserved (n : Nat) : Bool :=
  (65 ≤ n && n ≤ 90) || (97 ≤ n && n ≤ 122) || (48 ≤ n && n ≤ 57) ||
    n == 45 || n == 46 || n == 95 || n == 126 || n == 33 || n == 42 ||
    n == 39 || n == 40 || n == 41

/-- Modelled from the spec: the standard JS `encodeURIComponent`
percent-encoding, applied byte-wise to the UTF-8 encoding. -/
def encodeURIComponent (s : String) : String :=
  String.mk ((s.data.flatMap utf8Bytes).flatMap fun n =>
    if uriUnreserved n then [Char.ofNat n]
    else ['%', hexDigit (n / 16), hexDigit (n % 16)])

namespace CognitoConstants

/-- Modelled from the spec: the fixed string constants of the missing
`CognitoConstants` collaborator, with the wire values given by the spec's
URL contracts and callback-field names. -/
def TOKEN : String := "token"

def CODE : String := "code"

def POST : String := "POST"

def STATE : String := "state"

def SCOPE : String := "scope"

def ERROR : String := "error"

def IDTOKEN : String := "id_token"

def ACCESSTOKEN : String := "access_token"

def REFRESHTOKEN : String := "refresh_token"

def AUTHORIZATIONCODE : String := "authorization_code"

def GRANTTYPE : String := "grant_type"

def DOMAIN_SCHEME : String := "https"

def COLONDOUBLESLASH : String := "://"

def SLASH : String := "/"

def QUESTIONMARK : String := "?"

def POUNDSIGN : String := "#"

def AMPERSAND : String := "&"

def EQUALSIGN : String := "="

def SPACE : String := " "

def DOMAIN_PATH_SIGNIN : String := "oauth2/authorize"

def DOMAIN_PATH_TOKEN : String := "oauth2/token"

def DOMAIN_PATH_SIGNOUT : String := "logout"

def DOMAIN_QUERY_PARAM_REDIRECT_URI : String := "redirect_uri"

def DOMAIN_QUERY_PARAM_SIGNOUT_URI : String := "logout_uri"

def DOMAIN_QUERY_PARAM_RESPONSE_TYPE : String := "response_type"

def DOMAIN_QUERY_PARAM_IDENTITY_PROVIDER : String := "identity_provider"

def DOMAIN_QUERY_PARAM_USERCONTEXTDATA : String := "userContextData"

def CLIENT_ID : String := "client_id"

def PARAMETERERROR : String :=
  "The parameters: App client Id, App web domain, the redirect URL when you are signed in and the redirect URL when you are signed out are required."

def SCOPETYPEERROR : String := "Scopes have to be array type."

def PARSETYPEERROR : String := "Parse type error."

def REFRESHTYPEERROR : String := "The response type has to be code when refreshing tokens."

/-- Modelled from the spec: the CSRF state value has a fixed length. -/
def STATELENGTH : Nat := 32

/-- Modelled from the spec: the fixed alphabet the CSRF state is drawn
from. -/
def STATEORIGINSTRING : String :=
  "abcdefghijklmnopqrstuvwxyzABCDEFGHIJKLMNOPQRSTUVWXYZ0123456789"

end CognitoConstants

/-- Modelled from the spec: `CognitoToken`, an immutable wrapper around a
signed token string (`none` models a JS `undefined`/`null` raw value). -/
structure CognitoToken where
  jwtToken : Option String
deriving Repr, DecidableEq

/-- Modelled from the spec: `CognitoRefreshToken`, an immutable wrapper
around an opaque refresh credential string. -/
structure CognitoRefreshToken where
  token : Option String
deriving Repr, DecidableEq

/-- Modelled from the spec: the opaque JWT claims parser, yielding an
expiration time and a subject/username claim from a raw token string. -/
structure JwtDecoder where
  exp : String → Option Int
  sub : String → Option String

/-- The expiration claim of a token: a token whose raw value is absent has
no expiration and is never valid. -/
def CognitoToken.getExpiration (dec : JwtDecoder) (t : CognitoToken) : Option Int :=
  t.jwtToken.bind dec.exp

/-- The subject/username claim of a token. -/
def CognitoToken.getUsername (dec : JwtDecoder) (t : CognitoToken) : Option String :=
  t.jwtToken.bind dec.sub

/-- Modelled from the spec: `CognitoAuthSession`, aggregating the three
token kinds, the scope list and the anti-forgery state value. The scope
field models the `CognitoTokenScopes` wrapper as its underlying array of
scope strings. -/
structure CognitoAuthSession where
  idToken : CognitoToken
  accessToken : CognitoToken
  refreshToken : CognitoRefreshToken
  tokenScopes : List String
  state : Option String
deriving Repr, DecidableEq

/-- Modelled from the spec: the session built by `new CognitoAuthSession()`
with no data — empty tokens, empty scope set, no state. -/
def emptyAuthSession : CognitoAuthSession :=
  { idToken := ⟨none⟩, accessToken := ⟨none⟩, refreshToken := ⟨none⟩,
    tokenScopes := [], state := none }

/-- Modelled from the spec: `session.isValid()` holds iff the id and
access tokens are both present and their expiration is strictly in the
future relative to the current time. -/
def CognitoAuthSession.isValid (dec : JwtDecoder) (now : Int) (s : CognitoAuthSession) : Bool :=
  match s.idToken.getExpiration dec, s.accessToken.getExpiration dec with
  | some e1, some e2 => now < e1 && now < e2
  | _, _ => false

/-- The mutable fields of the `CognitoAuth` orchestrator instance,
together with the storage collaborator's current contents.
`signInUserSession` is optional because `signOut` assigns JS `null` to it.
`hasUserhandler` records whether a user handler is registered;
`contextData` models the value the ambient advanced-security data
collector would return (`none` when the collector is not available). -/
structure CognitoAuth where
  clientId : String
  appWebDomain : String
  tokenScopesArray : List String
  redirectUriSignIn : String
  redirectUriSignOut : String
  identityProvider : Option String
  userPoolId : Option String
  responseType : String
  storage : Storage
  username : Option String
  signInUserSession : Option CognitoAuthSession
  state : Option String
  hasUserhandler : Bool
  advancedSecurityDataCollectionFlag : Bool
  contextData : Option String
deriving Repr, DecidableEq

/-- The externally observable effects of one orchestrator call: URLs
passed to `launchUri`, arguments of `userhandler.onSuccess` calls, and
arguments of `userhandler.onFailure` calls. -/
structure Effects where
  launched : List String
  succeeded : List (Option CognitoAuthSession)
  failed : List String
deriving Repr, DecidableEq

/-- Source `compareSets` (src/CognitoAuth.ts lines 502-512): two sets are
identical when their sizes agree and every member of the first belongs to
the second. -/
def compareSets (s1 s2 : Finset String) : Bool :=
  if s1.card ≠ s2.card then false
  else decide (∀ x ∈ s1, x ∈ s2)

/-- Source `generateRandomString` (lines 554-559): builds a string of the
given length whose characters are drawn from `chars`; the random draws of
`Math.random` are modelled by the oracle `rand`, each draw reduced into
the index range of `chars`. -/
def generateRandomString (length : Nat) (chars : String) (rand : Nat → Nat) : String :=
  String.mk ((List.range length).map fun i => chars.data.getD (rand i % chars.length) ' ')

/-- Source `getLastUser` (lines 463-471): reads the client-scoped
last-signed-in-user pointer; a falsy stored value yields `undefined`. -/
def getLastUserFrom (storage : Storage) (clientId : String) : Option String :=
  let lastUserName := storage.getItem ("CognitoIdentityServiceProvider." ++ clientId ++ ".LastAuthUser")
  if jsFalsy lastUserName then none else lastUserName

/-- Source `getCachedSession` (lines 429-457): an empty session when no
username is set, otherwise a session rebuilt from the four persisted
fields of the current username (the scope string split on spaces, a falsy
scope string yielding the empty scope list). -/
def getCachedSession (st : CognitoAuth) : CognitoAuthSession :=
  if jsFalsy st.username then emptyAuthSession
  else
    let keyPfx := "CognitoIdentityServiceProvider." ++ st.clientId ++ "." ++ jsString st.username
    let scopesString := st.storage.getItem (keyPfx ++ ".tokenScopesString")
    let scopesArray := if jsFalsy scopesString then [] else strSplit (jsString scopesString) ' '
    { idToken := ⟨st.storage.getItem (keyPfx ++ ".idToken")⟩,
      accessToken := ⟨st.storage.getItem (keyPfx ++ ".accessToken")⟩,
      refreshToken := ⟨st.storage.getItem (keyPfx ++ ".refreshToken")⟩,
      tokenScopes := scopesArray,
      state := none }

/-- Source `getUserContextData` (lines 821-840): yields the ambient
collector's payload only when the collector is available and the
collection flag is enabled. -/
def getUserContextData (st : CognitoAuth) : Option String :=
  if st.advancedSecurityDataCollectionFlag then st.contextData else none

/-- Source `getSpaceSeperatedScopeString` (lines 737-741) applied to a
session: the session's scopes joined by spaces and percent-encoded. -/
def getSpaceSeperatedScopeString (sess : CognitoAuthSession) : String :=
  encodeURIComponent (String.intercalate CognitoConstants.SPACE sess.tokenScopes)

/-- Source `getFQDNSignIn` (lines 747-785) given the non-null session the
scope string is read from: generates and stores a fresh CSRF state when
none is set, then assembles the authorize URL from the configured fields.
Returns the updated orchestrator state and the URL. -/
def getFQDNSignInAux (rand : Nat → Nat) (st : CognitoAuth) (sess : CognitoAuthSession) :
    CognitoAuth × String :=
  let st1 :=
    if st.state = none then
      { st with state := some (generateRandomString CognitoConstants.STATELENGTH
          CognitoConstants.STATEORIGINSTRING rand) }
    else st
  let identityProviderParam :=
    match st1.identityProvider with
    | some idp =>
      if idp = "" then ""
      else CognitoConstants.AMPERSAND ++ CognitoConstants.DOMAIN_QUERY_PARAM_IDENTITY_PROVIDER ++
        CognitoConstants.EQUALSIGN ++ idp
    | none => ""
  let tokenScopesString := getSpaceSeperatedScopeString sess
  let userContextDataParam :=
    match getUserContextData st1 with
    | some d =>
      if d = "" then ""
      else CognitoConstants.AMPERSAND ++ CognitoConstants.DOMAIN_QUERY_PARAM_USERCONTEXTDATA ++
        CognitoConstants.EQUALSIGN ++ d
    | none => ""
  let uri := CognitoConstants.DOMAIN_SCHEME ++ CognitoConstants.COLONDOUBLESLASH ++
    st1.appWebDomain ++ CognitoConstants.SLASH ++ CognitoConstants.DOMAIN_PATH_SIGNIN ++
    CognitoConstants.QUESTIONMARK ++ CognitoConstants.DOMAIN_QUERY_PARAM_REDIRECT_URI ++
    CognitoConstants.EQUALSIGN ++ encodeURIComponent st1.redirectUriSignIn ++
    CognitoConstants.AMPERSAND ++ CognitoConstants.DOMAIN_QUERY_PARAM_RESPONSE_TYPE ++
    CognitoConstants.EQUALSIGN ++ st1.responseType ++
    CognitoConstants.AMPERSAND ++ CognitoConstants.CLIENT_ID ++
    CognitoConstants.EQUALSIGN ++ st1.clientId ++
    CognitoConstants.AMPERSAND ++ CognitoConstants.STATE ++
    CognitoConstants.EQUALSIGN ++ jsString st1.state ++
    CognitoConstants.AMPERSAND ++ CognitoConstants.SCOPE ++
    CognitoConstants.EQUALSIGN ++ tokenScopesString ++
    identityProviderParam ++ userContextDataParam
  (st1, uri)

/-- Source `getFQDNSignIn` as called on the orchestrator: dereferences the
held session for the scope string (`none` models the TypeError a null
session would raise). -/
def getFQDNSignIn (rand : Nat → Nat) (st : CognitoAuth) : Option (CognitoAuth × String) :=
  st.signInUserSession.map (getFQDNSignInAux rand st)

/-- Source `getFQDNSignOut` (lines 802-813). -/
def getFQDNSignOut (st : CognitoAuth) : String :=
  CognitoConstants.DOMAIN_SCHEME ++ CognitoConstants.COLONDOUBLESLASH ++
    st.appWebDomain ++ CognitoConstants.SLASH ++ CognitoConstants.DOMAIN_PATH_SIGNOUT ++
    CognitoConstants.QUESTIONMARK ++ CognitoConstants.DOMAIN_QUERY_PARAM_SIGNOUT_URI ++
    CognitoConstants.EQUALSIGN ++ encodeURIComponent st.redirectUriSignOut ++
    CognitoConstants.AMPERSAND ++ CognitoConstants.CLIENT_ID ++
    CognitoConstants.EQUALSIGN ++ st.clientId

/-- Source `cacheTokensScopes` (lines 478-494) given the non-null held
session: derives the active username from the access token's subject
claim, stores it in the `username` field, and writes the four token/scope
fields under that username plus the client-scoped last-user pointer. -/
def cacheTokensScopesAux (dec : JwtDecoder) (st : CognitoAuth) (sess : CognitoAuthSession) :
    CognitoAuth :=
  let keyPfx := "CognitoIdentityServiceProvider." ++ st.clientId
  let tokenUserName := sess.accessToken.getUsername dec
  let idTokenKey := keyPfx ++ "." ++ jsString tokenUserName ++ ".idToken"
  let accessTokenKey := keyPfx ++ "." ++ jsString tokenUserName ++ ".accessToken"
  let refreshTokenKey := keyPfx ++ "." ++ jsString tokenUserName ++ ".refreshToken"
  let lastUserKey := keyPfx ++ ".LastAuthUser"
  let scopeKey := keyPfx ++ "." ++ jsString tokenUserName ++ ".tokenScopesString"
  let scopesString := String.intercalate CognitoConstants.SPACE sess.tokenScopes
  let storage1 := st.storage.setItem idTokenKey (jsString sess.idToken.jwtToken)
  let storage2 := storage1.setItem accessTokenKey (jsString sess.accessToken.jwtToken)
  let storage3 := storage2.setItem refreshTokenKey (jsString sess.refreshToken.token)
  let storage4 := storage3.setItem lastUserKey (jsString tokenUserName)
  let storage5 := storage4.setItem scopeKey scopesString
  { st with username := tokenUserName, storage := storage5 }

/-- Source `cacheTokensScopes` as called on the orchestrator (`none`
models the TypeError a null held session would raise). -/
def cacheTokensScopes (dec : JwtDecoder) (st : CognitoAuth) : Option CognitoAuth :=
  st.signInUserSession.map (cacheTokensScopesAux dec st)

/-- Source `clearCachedTokensScopes` (lines 565-578): removes the four
token/scope keys of the current username and the client-scoped last-user
pointer. -/
def clearCachedTokensScopes (st : CognitoAuth) : CognitoAuth :=
  let keyPfx := "CognitoIdentityServiceProvider." ++ st.clientId
  let idTokenKey := keyPfx ++ "." ++ jsString st.username ++ ".idToken"
  let accessTokenKey := keyPfx ++ "." ++ jsString st.username ++ ".accessToken"
  let refreshTokenKey := keyPfx ++ "." ++ jsString st.username ++ ".refreshToken"
  let lastUserKey := keyPfx ++ ".LastAuthUser"
  let scopeKey := keyPfx ++ "." ++ jsString st.username ++ ".tokenScopesString"
  let storage1 := st.storage.removeItem idTokenKey
  let storage2 := storage1.removeItem accessTokenKey
  let storage3 := storage2.removeItem refreshTokenKey
  let storage4 := storage3.removeItem lastUserKey
  let storage5 := storage4.removeItem scopeKey
  { st with storage := storage5 }

/-- Source `signOut` (lines 791-796): builds the sign-out URL, assigns
JS `null` to the held session, erases the current user's cache entries
and launches the URL. -/
def signOut (st : CognitoAuth) : CognitoAuth × Effects :=
  let URL := getFQDNSignOut st
  let st1 := { st with signInUserSession := none }
  let st2 := clearCachedTokensScopes st1
  (st2, ⟨[URL], [], []⟩)

/-- Source `getQueryParameters` (lines 534-546), with the split mark as a
single character: takes the portion of the url after the first occurrence
of the mark (modelled from the spec: "the portion after `#` / `?`"; JS
turns a missing portion into the string "undefined"), splits it on `&`,
and enters each `key=value` pair into the mapping (the value being
everything after the first `=`, absent when there is no `=`). -/
def getQueryParameters (url : String) (splitMark : Char) : QueryMap :=
  let url2 := strAfterFirst url splitMark
  let str1 := strSplit (jsString url2) '&'
  str1.foldl (fun m part => mapSet m (strBeforeFirst part '=') (strAfterFirst part '=')) []

/-- Result of `parseCognitoCode`: a thrown parse error, a token-endpoint
exchange request about to be posted (with its form body), or the JS
`undefined` the function returns when the response carries neither an
`error` nor a `code` field. -/
inductive ParseCodeResult where
  | thrown (e : String)
  | post (body : List (String × Option String))
  | jsUndefined
deriving Repr, DecidableEq

/-- Source `parseCognitoCode` (lines 343-370): truncates the response at
the first `#`, parses the query portion, throws a parse error if an
`error` key is present, otherwise records the callback `state` into the
held session and, when a `code` is present, issues the code-for-token
exchange (`makePostCode`, lines 372-384, adds `client_id` and
`redirect_uri` to the body). `none` models the TypeError a null held
session would raise at `setState`. -/
def parseCognitoCode (st : CognitoAuth) (resp : String) :
    Option (CognitoAuth × ParseCodeResult) :=
  let response := strBeforeFirst resp '#'
  let map := getQueryParameters response '?'
  if hasKey map CognitoConstants.ERROR then some (st, .thrown CognitoConstants.PARSETYPEERROR)
  else
    match st.signInUserSession with
    | none => none
    | some sess =>
      let sess1 := { sess with
        state := if hasKey map CognitoConstants.STATE then (mapGet map CognitoConstants.STATE).join
          else none }
      let st1 := { st with signInUserSession := some sess1 }
      if hasKey map CognitoConstants.CODE then
        some (st1, .post [(CognitoConstants.GRANTTYPE, some CognitoConstants.AUTHORIZATIONCODE),
          (CognitoConstants.CODE, (mapGet map CognitoConstants.CODE).join),
          (CognitoConstants.CLIENT_ID, some st1.clientId),
          (CognitoConstants.DOMAIN_QUERY_PARAM_REDIRECT_URI, some st1.redirectUriSignIn)])
      else some (st1, .jsUndefined)

/-- Source `resolveCognitoAuthSession` (lines 392-422): fails with a parse
error when the mapping carries an `error` key, before any field of the
held session is touched; otherwise rebuilds the session's id token, access
token, state and refresh token from the mapping (absent fields becoming
empty values), persists via `cacheTokensScopes` and returns the session.
`none` models the TypeError a null held session would raise. -/
def resolveCognitoAuthSession (dec : JwtDecoder) (st : CognitoAuth) (map : QueryMap) :
    Option (CognitoAuth × Except String CognitoAuthSession) :=
  if hasKey map CognitoConstants.ERROR then
    some (st, .error CognitoConstants.PARSETYPEERROR)
  else
    match st.signInUserSession with
    | none => none
    | some sess =>
      let sess1 := { sess with
        idToken := ⟨if hasKey map CognitoConstants.IDTOKEN then
          (mapGet map CognitoConstants.IDTOKEN).join else none⟩,
        accessToken := ⟨if hasKey map CognitoConstants.ACCESSTOKEN then
          (mapGet map CognitoConstants.ACCESSTOKEN).join else none⟩,
        state := if hasKey map CognitoConstants.STATE then
          (mapGet map CognitoConstants.STATE).join else none,
        refreshToken := ⟨if hasKey map CognitoConstants.REFRESHTOKEN then
          (mapGet map CognitoConstants.REFRESHTOKEN).join else none⟩ }
      let st1 := { st with signInUserSession := some sess1 }
      let st2 := cacheTokensScopesAux dec st1 sess1
      some (st2, .ok sess1)

/-- Result of a `refreshSession` entry call: the `onFailure` route that
returns JS `undefined`, a rejected promise, or a token-endpoint exchange
request being posted. -/
inductive RefreshOutcome where
  | returnedUndefined
  | rejected (e : String)
  | post (body : List (String × Option String))
deriving Repr, DecidableEq

/-- Source `refreshSession` entry (lines 585-598): under the implicit
(`token`) response type the call fails immediately with the refresh-type
error — through the registered failure handler when one exists, otherwise
as a rejected promise — and performs no network exchange; under the code
response type it posts the refresh-token grant to the token endpoint. -/
def refreshSession (st : CognitoAuth) (refreshToken : String) :
    CognitoAuth × Effects × RefreshOutcome :=
  if st.responseType = CognitoConstants.TOKEN then
    if st.hasUserhandler then
      (st, ⟨[], [], [CognitoConstants.REFRESHTYPEERROR]⟩, .returnedUndefined)
    else
      (st, ⟨[], [], []⟩, .rejected CognitoConstants.REFRESHTYPEERROR)
  else
    (st, ⟨[], [], []⟩, .post [(CognitoConstants.GRANTTYPE, some CognitoConstants.REFRESHTOKEN),
      (CognitoConstants.REFRESHTOKEN, some refreshToken),
      (CognitoConstants.CLIENT_ID, some st.clientId),
      (CognitoConstants.DOMAIN_QUERY_PARAM_REDIRECT_URI, some st.redirectUriSignIn)])

/-- Result of the refresh exchange continuation: the resolved session, or
the failure routes of the attached `catch`. -/
inductive ExchangeOutcome where
  | ok (s : CognitoAuthSession)
  | returnedUndefined
  | rejected (e : String)
deriving Repr, DecidableEq

/-- Source `refreshSession` exchange continuation (lines 599-624): on an
`error` field in the exchange result, launches the sign-in URL and throws
the refresh-type error, which the attached catch routes to the failure
handler (resolving `undefined`) or rethrows; otherwise updates only the
id and access tokens of the held session from the result, persists via
`cacheTokensScopes` and returns the session. `none` models the TypeError
a null held session would raise. -/
def refreshExchangeStep (dec : JwtDecoder) (rand : Nat → Nat) (st : CognitoAuth)
    (map : QueryMap) : Option (CognitoAuth × Effects × ExchangeOutcome) :=
  if hasKey map CognitoConstants.ERROR then
    match st.signInUserSession with
    | none => none
    | some sess =>
      let r := getFQDNSignInAux rand st sess
      if r.1.hasUserhandler then
        some (r.1, ⟨[r.2], [], [CognitoConstants.REFRESHTYPEERROR]⟩, .returnedUndefined)
      else
        some (r.1, ⟨[r.2], [], []⟩, .rejected CognitoConstants.REFRESHTYPEERROR)
  else
    match st.signInUserSession with
    | none => none
    | some sess =>
      let sess1 := if hasKey map CognitoConstants.IDTOKEN then
        { sess with idToken := ⟨(mapGet map CognitoConstants.IDTOKEN).join⟩ } else sess
      let sess2 := if hasKey map CognitoConstants.ACCESSTOKEN then
        { sess1 with accessToken := ⟨(mapGet map CognitoConstants.ACCESSTOKEN).join⟩ } else sess1
      let st1 := { st with signInUserSession := some sess2 }
      let st2 := cacheTokensScopesAux dec st1 sess2
      some (st2, ⟨[], if st2.hasUserhandler then [some sess2] else [], []⟩, .ok sess2)

/-- Result of `parseCognitoWebResponse`: a resolved session, a failure
routed to the registered handler (the call resolving `undefined`), a
rejected promise, or a pending code-for-token exchange. -/
inductive WebResponseOutcome where
  | success (s : CognitoAuthSession)
  | routedFailure (e : String)
  | rejected (e : String)
  | pendingExchange (body : List (String × Option String))
deriving Repr, DecidableEq

/-- Source `parseCognitoWebResponse` (lines 318-333): selects the parser
by configured response type, resolves the parsed mapping into a session,
and routes any failure to the registered failure handler when one exists,
rethrowing otherwise. The code-flow network exchange is left pending; a
code-flow response with neither `error` nor `code` makes `parseCognitoCode`
return JS `undefined`, on which the `.then` chain raises a TypeError
(modelled by `none`). -/
def parseCognitoWebResponse (dec : JwtDecoder) (st : CognitoAuth) (resp : String) :
    Option (CognitoAuth × Effects × WebResponseOutcome) :=
  if st.responseType = CognitoConstants.TOKEN then
    let map := getQueryParameters resp '#'
    match resolveCognitoAuthSession dec st map with
    | none => none
    | some (st1, .error e) =>
      if st1.hasUserhandler then some (st1, ⟨[], [], [e]⟩, .routedFailure e)
      else some (st1, ⟨[], [], []⟩, .rejected e)
    | some (st1, .ok s) =>
      some (st1, ⟨[], if st1.hasUserhandler then [some s] else [], []⟩, .success s)
  else
    match parseCognitoCode st resp with
    | none => none
    | some (st1, .thrown e) =>
      if st1.hasUserhandler then some (st1, ⟨[], [], [e]⟩, .routedFailure e)
      else some (st1, ⟨[], [], []⟩, .rejected e)
    | some (st1, .post body) => some (st1, ⟨[], [], []⟩, .pendingExchange body)
    | some (_, .jsUndefined) => none

/-- Result of a `getSession` call: a session resolved synchronously, the
`undefined` resolution of the redirect-issuing branches, or entry into the
refresh sub-flow with the cached refresh credential. -/
inductive SessionOutcome where
  | resolvedSession (s : CognitoAuthSession)
  | resolvedUndefined
  | refreshFlow (tok : String)
deriving Repr, DecidableEq

/-- Source `getSession` (lines 268-311). The two comparison sets are built
first — the second one from the scopes of the session held at entry (line
270), before the reload of line 278 — and the sign-in URL is built (which
may generate and store a CSRF state). A valid held session is returned at
once. Otherwise the session is reloaded from cache; on a set mismatch the
reloaded session's scopes are reset to the configured ones and its tokens
to empty ones, the sign-in URL is launched and the call resolves
`undefined`; a valid reloaded session is returned; with no usable refresh
credential the sign-in URL is launched and the call resolves `undefined`;
otherwise the refresh sub-flow is entered. `none` models the TypeError a
null held session would raise at line 270. -/
def getSession (dec : JwtDecoder) (now : Int) (rand : Nat → Nat) (st : CognitoAuth) :
    Option (CognitoAuth × Effects × SessionOutcome) :=
  match st.signInUserSession with
  | none => none
  | some sess =>
    let tokenScopesInputSet := st.tokenScopesArray.toFinset
    let cachedScopesSet := sess.tokenScopes.toFinset
    let r := getFQDNSignInAux rand st sess
    let st1 := r.1
    let URL := r.2
    if sess.isValid dec now then
      some (st1, ⟨[], if st1.hasUserhandler then [some sess] else [], []⟩,
        .resolvedSession sess)
    else
      let sess2 := getCachedSession st1
      let st2 := { st1 with signInUserSession := some sess2 }
      if compareSets tokenScopesInputSet cachedScopesSet = false then
        let sess3 := { sess2 with
          tokenScopes := st2.tokenScopesArray,
          idToken := ⟨none⟩, accessToken := ⟨none⟩, refreshToken := ⟨none⟩ }
        let st3 := { st2 with signInUserSession := some sess3 }
        some (st3, ⟨[URL], if st3.hasUserhandler then [none] else [], []⟩, .resolvedUndefined)
      else if sess2.isValid dec now then
        some (st2, ⟨[], if st2.hasUserhandler then [some sess2] else [], []⟩,
          .resolvedSession sess2)
      else if jsFalsy sess2.refreshToken.token then
        some (st2, ⟨[URL], if st2.hasUserhandler then [none] else [], []⟩, .resolvedUndefined)
      else
        some (st2, ⟨[], [], []⟩, .refreshFlow (jsString sess2.refreshToken.token))

/-- The construction options object (src/CognitoAuth.ts lines 33-83);
the storage and launcher collaborators are passed separately. -/
structure CognitoAuthOptions where
  ClientId : String
  AppWebDomain : String
  TokenScopesArray : Option (List String)
  RedirectUriSignIn : String
  RedirectUriSignOut : String
  IdentityProvider : Option String
  UserPoolId : Option String
  AdvancedSecurityDataCollectionFlag : Option Bool
deriving Repr, DecidableEq

/-- Source constructor (lines 127-157): throws the parameter error when a
required field is falsy, then throws the scope-type error when
`TokenScopesArray` is not an array (`Array.isArray(undefined)` is false,
so an omitted field also throws); otherwise initialises the fields, reads
the last user from storage, loads the cached session and overwrites its
scopes with the configured ones. -/
def cognitoAuthNew (data : CognitoAuthOptions) (storage : Storage) (implicitFlow : Bool) :
    Except String CognitoAuth :=
  if data.ClientId = "" ∨ data.AppWebDomain = "" ∨ data.RedirectUriSignIn = "" ∨
      data.RedirectUriSignOut = "" then
    .error CognitoConstants.PARAMETERERROR
  else if data.TokenScopesArray.isNone then
    .error CognitoConstants.SCOPETYPEERROR
  else
    let tokenScopesArray := data.TokenScopesArray.getD []
    let st0 : CognitoAuth :=
      { clientId := data.ClientId,
        appWebDomain := data.AppWebDomain,
        tokenScopesArray := tokenScopesArray,
        redirectUriSignIn := data.RedirectUriSignIn,
        redirectUriSignOut := data.RedirectUriSignOut,
        identityProvider := data.IdentityProvider,
        userPoolId := data.UserPoolId,
        responseType := if implicitFlow then CognitoConstants.TOKEN else CognitoConstants.CODE,
        storage := storage,
        username := getLastUserFrom storage data.ClientId,
        signInUserSession := none,
        state := none,
        hasUserhandler := false,
        advancedSecurityDataCollectionFlag := jsBool data.AdvancedSecurityDataCollectionFlag,
        contextData := none }
    let sess := getCachedSession st0
    .ok { st0 with signInUserSession := some { sess with tokenScopes := tokenScopesArray } }

/-! ## Helper lemmas -/

theorem getItem_removeItem_self (s : Storage) (k : String) :
    Storage.getItem (Storage.removeItem s k) k = none := by
  induction s with
  | nil => rfl
  | cons p rest ih =>
    obtain ⟨k1, v1⟩ := p
    rw [Storage.removeItem]
    by_cases h1 : k1 = k
    · rw [if_pos h1]; exact ih
    · rw [if_neg h1, Storage.getItem, if_neg h1]; exact ih

theorem getItem_removeItem_ne (s : Storage) {k key : String} (h : key ≠ k) :
    Storage.getItem (Storage.removeItem s k) key = Storage.getItem s key := by
  induction s with
  | nil => rfl
  | cons p rest ih =>
    obtain ⟨k1, v1⟩ := p
    rw [Storage.removeItem]
    by_cases h1 : k1 = k
    · rw [if_pos h1, ih, Storage.getItem, if_neg (fun hh => h (by rw [hh] at h1; exact h1))]
    · rw [if_neg h1, Storage.getItem, Storage.getItem]
      by_cases h2 : k1 = key
      · simp [h2]
      · rw [if_neg h2, if_neg h2, ih]

theorem getItem_removeItem (s : Storage) (k key : String) :
    Storage.getItem (Storage.removeItem s k) key =
      if key = k then none else Storage.getItem s key := by
  by_cases h : key = k
  · subst h; simp [getItem_removeItem_self]
  · simp [h, getItem_removeItem_ne s h]

theorem getItem_setItem (s : Storage) (k v key : String) :
    Storage.getItem (Storage.setItem s k v) key =
      if key = k then some v else Storage.getItem s key := by
  by_cases hk : key = k
  · subst hk; simp [Storage.setItem, Storage.getItem]
  · rw [Storage.setItem, Storage.getItem, if_neg (Ne.symm hk), if_neg hk,
      getItem_removeItem_ne s hk]

theorem strData_append (a b : String) : (a ++ b).data = a.data ++ b.data := by
  cases a; cases b; rfl

theorem key_ne_of_suffix (x1 x2 l1 l2 : String) (s1 s2 : List Char)
    (h1 : s1 <:+ l1.data) (h2 : s2 <:+ l2.data) (hl : s1.length = s2.length)
    (hs : s1 ≠ s2) : x1 ++ l1 ≠ x2 ++ l2 := by
  intro h
  have hd : (x1 ++ l1).data = (x2 ++ l2).data := congrArg String.data h
  rw [strData_append, strData_append] at hd
  have hsa : s1 <:+ x1.data ++ l1.data := h1.trans (List.suffix_append x1.data l1.data)
  have hsb : s2 <:+ x2.data ++ l2.data := h2.trans (List.suffix_append x2.data l2.data)
  rw [hd] at hsa
  obtain ⟨u, hu⟩ := hsa
  obtain ⟨w, hw⟩ := hsb
  rw [← hw] at hu
  have hlen : u.length = w.length := by
    have h' := congrArg List.length hu
    simp at h'
    omega
  exact hs (List.append_inj hu hlen).2

/-! ## C2 -/

/-- C2: the set comparison used by the orchestrator returns true exactly
when the two sets are equal (same size and members), independent of
element order: the sets built from `[a, b]` and `[b, a]` compare equal,
while the sets built from `[a, b]` and `[a]` do not. -/
theorem compareSets_set_equality :
    (∀ s1 s2 : Finset String, compareSets s1 s2 = true ↔ s1 = s2) ∧
    compareSets (["a", "b"].toFinset) (["b", "a"].toFinset) = true ∧
    compareSets (["a", "b"].toFinset) (["a"].toFinset) = false := by
  refine ⟨fun s1 s2 => ⟨fun h => ?_, fun h => ?_⟩, by decide, by decide⟩
  · by_cases hc : s1.card = s2.card
    · simp only [compareSets, hc, ne_eq, not_true_eq_false, if_false,
        decide_eq_true_eq] at h
      exact Finset.eq_of_subset_of_card_le (fun x hx => h x hx) (le_of_eq hc.symm)
    · simp [compareSets, hc] at h
  · subst h
    simp [compareSets]

/-! ## C3 -/

/-- C3: invoking `refreshSession` while the configured response type is
the implicit (`token`) type fails immediately with the refresh-type
error — through the registered failure handler when one exists, otherwise
as a rejected promise — and posts no network exchange. -/
theorem refreshSession_implicit_rejects (st : CognitoAuth) (tok : String)
    (h : st.responseType = CognitoConstants.TOKEN) :
    refreshSession st tok =
      (if st.hasUserhandler then
        (st, ⟨[], [], [CognitoConstants.REFRESHTYPEERROR]⟩, RefreshOutcome.returnedUndefined)
      else
        (st, ⟨[], [], []⟩, RefreshOutcome.rejected CognitoConstants.REFRESHTYPEERROR)) ∧
    ∀ body, (refreshSession st tok).2.2 ≠ RefreshOutcome.post body := by
  constructor
  · simp [refreshSession, h]
  · intro body
    simp only [refreshSession, h, if_true, if_pos rfl]
    split <;> simp

/-- A concrete implicit-flow configuration with no registered handler. -/
def stImplicit : CognitoAuth :=
  { clientId := "client", appWebDomain := "auth.example.com",
    tokenScopesArray := ["openid"], redirectUriSignIn := "https://app/cb",
    redirectUriSignOut := "https://app/out", identityProvider := none,
    userPoolId := none, responseType := "token", storage := [],
    username := none, signInUserSession := some emptyAuthSession,
    state := some "STATE", hasUserhandler := false,
    advancedSecurityDataCollectionFlag := false, contextData := none }

theorem refreshSession_implicit_rejects_witness :
    refreshSession stImplicit "r1" =
      (stImplicit, ⟨[], [], []⟩, RefreshOutcome.rejected CognitoConstants.REFRESHTYPEERROR) ∧
    ∀ body, (refreshSession stImplicit "r1").2.2 ≠ RefreshOutcome.post body := by
  have h := refreshSession_implicit_rejects stImplicit "r1" rfl
  refine ⟨?_, h.2⟩
  have h1 := h.1
  simpa [stImplicit] using h1

/-! ## C10 -/

/-- C10: when the `TokenScopesArray` option is omitted (`undefined`), the
constructor throws the scope-type error even though every required field
is present and non-empty. -/
theorem constructor_requires_scopes_array (data : CognitoAuthOptions) (storage : Storage)
    (implicitFlow : Bool) (h1 : data.ClientId ≠ "") (h2 : data.AppWebDomain ≠ "")
    (h3 : data.RedirectUriSignIn ≠ "") (h4 : data.RedirectUriSignOut ≠ "")
    (h5 : data.TokenScopesArray = none) :
    cognitoAuthNew data storage implicitFlow = .error CognitoConstants.SCOPETYPEERROR := by
  simp [cognitoAuthNew, h1, h2, h3, h4, h5]

/-- Concrete options with every required field present but the scopes
array omitted. -/
def optsNoScopes : CognitoAuthOptions :=
  { ClientId := "client", AppWebDomain := "auth.example.com",
    TokenScopesArray := none, RedirectUriSignIn := "https://app/cb",
    RedirectUriSignOut := "https://app/out", IdentityProvider := none,
    UserPoolId := none, AdvancedSecurityDataCollectionFlag := none }

theorem constructor_requires_scopes_array_witness :
    cognitoAuthNew optsNoScopes [] true = .error CognitoConstants.SCOPETYPEERROR :=
  constructor_requires_scopes_array optsNoScopes [] true (by decide) (by decide)
    (by decide) (by decide) rfl

/-! ## C6 -/

/-- C6: sign-in URL generation stores a fresh random state value exactly
when none is set and leaves an already-set state untouched, so a second
call returns the same state and the same URL as the first. -/
theorem getFQDNSignIn_state_idempotent (rand : Nat → Nat) (st : CognitoAuth)
    (sess : CognitoAuthSession) :
    getFQDNSignInAux rand (getFQDNSignInAux rand st sess).1 sess =
      getFQDNSignInAux rand st sess ∧
    (getFQDNSignInAux rand st sess).1 =
      { st with state :=
          (if st.state = none then
            some (generateRandomString CognitoConstants.STATELENGTH
              CognitoConstants.STATEORIGINSTRING rand)
          else st.state) } := by
  constructor
  · cases hst : st.state with
    | none => simp [getFQDNSignInAux, hst]
    | some s => simp [getFQDNSignInAux, hst]
  · simp only [getFQDNSignInAux]
    split
    next h => simp [h]
    next h => simp only [if_neg h]

/-! ## C5 -/

/-- C5: a callback response whose parsed field mapping contains an `error`
key makes resolution fail with the parse error — routed to the registered
failure handler when one exists, rejected otherwise — while the held
session and the cache are left completely unmodified: `parseCognitoCode`
throws before touching the state, `resolveCognitoAuthSession` fails before
any field update or cache write, and `parseCognitoWebResponse` routes the
failure leaving the state unchanged. -/
theorem errorResponse_fails_without_mutation :
    (∀ (st : CognitoAuth) (resp : String),
      hasKey (getQueryParameters (strBeforeFirst resp '#') '?') CognitoConstants.ERROR = true →
      parseCognitoCode st resp = some (st, .thrown CognitoConstants.PARSETYPEERROR)) ∧
    (∀ (dec : JwtDecoder) (st : CognitoAuth) (map : QueryMap),
      hasKey map CognitoConstants.ERROR = true →
      resolveCognitoAuthSession dec st map = some (st, .error CognitoConstants.PARSETYPEERROR)) ∧
    (∀ (dec : JwtDecoder) (st : CognitoAuth) (resp : String),
      st.responseType = CognitoConstants.TOKEN →
      hasKey (getQueryParameters resp '#') CognitoConstants.ERROR = true →
      parseCognitoWebResponse dec st resp = some (st,
        if st.hasUserhandler then
          (⟨[], [], [CognitoConstants.PARSETYPEERROR]⟩,
            WebResponseOutcome.routedFailure CognitoConstants.PARSETYPEERROR)
        else
          (⟨[], [], []⟩, WebResponseOutcome.rejected CognitoConstants.PARSETYPEERROR))) := by
  refine ⟨fun st resp h => ?_, fun dec st map h => ?_, fun dec st resp ht h => ?_⟩
  · simp [parseCognitoCode, h]
  · simp [resolveCognitoAuthSession, h]
  · simp only [parseCognitoWebResponse, ht, if_pos rfl, resolveCognitoAuthSession, h, if_true]
    split <;> simp

/-- A concrete claims decoder for witnesses: every token expires at 9999
and carries subject `user1`. -/
def decW : JwtDecoder := ⟨fun _ => some 9999, fun _ => some "user1"⟩

theorem errorResponse_fails_without_mutation_witness :
    parseCognitoCode stImplicit "https://app/cb?error=access_denied" =
      some (stImplicit, .thrown CognitoConstants.PARSETYPEERROR) ∧
    resolveCognitoAuthSession decW stImplicit [("error", some "access_denied")] =
      some (stImplicit, .error CognitoConstants.PARSETYPEERROR) ∧
    parseCognitoWebResponse decW stImplicit "https://app/cb#error=access_denied" =
      some (stImplicit, ⟨[], [], []⟩,
        WebResponseOutcome.rejected CognitoConstants.PARSETYPEERROR) := by
  have h := errorResponse_fails_without_mutation
  refine ⟨h.1 stImplicit _ (by decide), h.2.1 decW stImplicit _ (by decide), ?_⟩
  have h3 := h.2.2 decW stImplicit "https://app/cb#error=access_denied" rfl (by decide)
  simpa [stImplicit] using h3

/-! ## C4 -/

/-- C4: a successful refresh exchange (result mapping without an `error`
field) updates only the id and access tokens of the held session — its
refresh token, scope set and state are untouched — persists the updated
state through `cacheTokensScopes` and returns the updated session. -/
theorem refreshExchange_updates_only_tokens (dec : JwtDecoder) (rand : Nat → Nat)
    (st : CognitoAuth) (map : QueryMap) (sess : CognitoAuthSession)
    (hsess : st.signInUserSession = some sess)
    (herr : hasKey map CognitoConstants.ERROR = false) :
    (let sess' : CognitoAuthSession := { sess with
        idToken := if hasKey map CognitoConstants.IDTOKEN then
          ⟨(mapGet map CognitoConstants.IDTOKEN).join⟩ else sess.idToken,
        accessToken := if hasKey map CognitoConstants.ACCESSTOKEN then
          ⟨(mapGet map CognitoConstants.ACCESSTOKEN).join⟩ else sess.accessToken }
    refreshExchangeStep dec rand st map =
      some (cacheTokensScopesAux dec { st with signInUserSession := some sess' } sess',
        ⟨[], if st.hasUserhandler then [some sess'] else [], []⟩,
        ExchangeOutcome.ok sess') ∧
    sess'.refreshToken = sess.refreshToken ∧
    sess'.tokenScopes = sess.tokenScopes ∧
    sess'.state = sess.state ∧
    (cacheTokensScopesAux dec { st with signInUserSession := some sess' } sess').signInUserSession
      = some sess') := by
  refine ⟨?_, rfl, rfl, rfl, by simp [cacheTokensScopesAux]⟩
  simp only [refreshExchangeStep, herr, Bool.false_eq_true, if_false, hsess]
  cases h1 : hasKey map CognitoConstants.IDTOKEN <;>
    cases h2 : hasKey map CognitoConstants.ACCESSTOKEN <;>
      simp [h1, h2, cacheTokensScopesAux]

/-! ## C9 -/

/-- C9: persisting the session derives the active username exclusively
from the access token's subject claim — the result is independent of the
client-supplied `username` field — stores it as the new username, and
writes the four token/scope fields under that username plus the
client-scoped last-signed-in-user pointer set to that same username,
leaving every other cache key unchanged. -/
theorem cacheTokensScopes_username_from_access_token (dec : JwtDecoder) (st : CognitoAuth)
    (sess : CognitoAuthSession) (u : String) (w : Option String)
    (hsess : st.signInUserSession = some sess)
    (hu : sess.accessToken.getUsername dec = some u) :
    cacheTokensScopes dec st = some (cacheTokensScopesAux dec st sess) ∧
    (cacheTokensScopesAux dec st sess).username = some u ∧
    cacheTokensScopesAux dec { st with username := w } sess = cacheTokensScopesAux dec st sess ∧
    (cacheTokensScopesAux dec st sess).storage.getItem
      ("CognitoIdentityServiceProvider." ++ st.clientId ++ "." ++ u ++ ".idToken") =
      some (jsString sess.idToken.jwtToken) ∧
    (cacheTokensScopesAux dec st sess).storage.getItem
      ("CognitoIdentityServiceProvider." ++ st.clientId ++ "." ++ u ++ ".accessToken") =
      some (jsString sess.accessToken.jwtToken) ∧
    (cacheTokensScopesAux dec st sess).storage.getItem
      ("CognitoIdentityServiceProvider." ++ st.clientId ++ "." ++ u ++ ".refreshToken") =
      some (jsString sess.refreshToken.token) ∧
    (cacheTokensScopesAux dec st sess).storage.getItem
      ("CognitoIdentityServiceProvider." ++ st.clientId ++ "." ++ u ++ ".tokenScopesString") =
      some (String.intercalate " " sess.tokenScopes) ∧
    (cacheTokensScopesAux dec st sess).storage.getItem
      ("CognitoIdentityServiceProvider." ++ st.clientId ++ ".LastAuthUser") = some u ∧
    (∀ key,
      key ≠ "CognitoIdentityServiceProvider." ++ st.clientId ++ "." ++ u ++ ".idToken" →
      key ≠ "CognitoIdentityServiceProvider." ++ st.clientId ++ "." ++ u ++ ".accessToken" →
      key ≠ "CognitoIdentityServiceProvider." ++ st.clientId ++ "." ++ u ++ ".refreshToken" →
      key ≠ "CognitoIdentityServiceProvider." ++ st.clientId ++ "." ++ u ++ ".tokenScopesString" →
      key ≠ "CognitoIdentityServiceProvider." ++ st.clientId ++ ".LastAuthUser" →
      (cacheTokensScopesAux dec st sess).storage.getItem key = st.storage.getItem key) := by
  have hIdAc : "CognitoIdentityServiceProvider." ++ st.clientId ++ "." ++ u ++ ".idToken" ≠
      "CognitoIdentityServiceProvider." ++ st.clientId ++ "." ++ u ++ ".accessToken" :=
    key_ne_of_suffix _ _ _ _ ".idToken".data "essToken".data (by decide) (by decide)
      (by decide) (by decide)
  have hIdRe : "CognitoIdentityServiceProvider." ++ st.clientId ++ "." ++ u ++ ".idToken" ≠
      "CognitoIdentityServiceProvider." ++ st.clientId ++ "." ++ u ++ ".refreshToken" :=
    key_ne_of_suffix _ _ _ _ ".idToken".data "eshToken".data (by decide) (by decide)
      (by decide) (by decide)
  have hIdSc : "CognitoIdentityServiceProvider." ++ st.clientId ++ "." ++ u ++ ".idToken" ≠
      "CognitoIdentityServiceProvider." ++ st.clientId ++ "." ++ u ++ ".tokenScopesString" :=
    key_ne_of_suffix _ _ _ _ ".idToken".data "esString".data (by decide) (by decide)
      (by decide) (by decide)
  have hIdLa : "CognitoIdentityServiceProvider." ++ st.clientId ++ "." ++ u ++ ".idToken" ≠
      "CognitoIdentityServiceProvider." ++ st.clientId ++ ".LastAuthUser" :=
    key_ne_of_suffix _ _ _ _ ".idToken".data "AuthUser".data (by decide) (by decide)
      (by decide) (by decide)
  have hAcRe : "CognitoIdentityServiceProvider." ++ st.clientId ++ "." ++ u ++ ".accessToken" ≠
      "CognitoIdentityServiceProvider." ++ st.clientId ++ "." ++ u ++ ".refreshToken" :=
    key_ne_of_suffix _ _ _ _ "essToken".data "eshToken".data (by decide) (by decide)
      (by decide) (by decide)
  have hAcSc : "CognitoIdentityServiceProvider." ++ st.clientId ++ "." ++ u ++ ".accessToken" ≠
      "CognitoIdentityServiceProvider." ++ st.clientId ++ "." ++ u ++ ".tokenScopesString" :=
    key_ne_of_suffix _ _ _ _ "essToken".data "esString".data (by decide) (by decide)
      (by decide) (by decide)
  have hAcLa : "CognitoIdentityServiceProvider." ++ st.clientId ++ "." ++ u ++ ".accessToken" ≠
      "CognitoIdentityServiceProvider." ++ st.clientId ++ ".LastAuthUser" :=
    key_ne_of_suffix _ _ _ _ "essToken".data "AuthUser".data (by decide) (by decide)
      (by decide) (by decide)
  have hReSc : "CognitoIdentityServiceProvider." ++ st.clientId ++ "." ++ u ++ ".refreshToken" ≠
      "CognitoIdentityServiceProvider." ++ st.clientId ++ "." ++ u ++ ".tokenScopesString" :=
    key_ne_of_suffix _ _ _ _ "eshToken".data "esString".data (by decide) (by decide)
      (by decide) (by decide)
  have hReLa : "CognitoIdentityServiceProvider." ++ st.clientId ++ "." ++ u ++ ".refreshToken" ≠
      "CognitoIdentityServiceProvider." ++ st.clientId ++ ".LastAuthUser" :=
    key_ne_of_suffix _ _ _ _ "eshToken".data "AuthUser".data (by decide) (by decide)
      (by decide) (by decide)
  have hLaSc : "CognitoIdentityServiceProvider." ++ st.clientId ++ ".LastAuthUser" ≠
      "CognitoIdentityServiceProvider." ++ st.clientId ++ "." ++ u ++ ".tokenScopesString" :=
    key_ne_of_suffix _ _ _ _ "AuthUser".data "esString".data (by decide) (by decide)
      (by decide) (by decide)
  refine ⟨by simp [cacheTokensScopes, hsess], by simp [cacheTokensScopesAux, hu],
    by simp [cacheTokensScopesAux], ?_, ?_, ?_, ?_, ?_, ?_⟩
  · simp [cacheTokensScopesAux, hu, jsString, getItem_setItem,
      hIdAc, hIdRe, hIdSc, hIdLa]
  · simp [cacheTokensScopesAux, hu, jsString, getItem_setItem,
      hAcRe, hAcSc, hAcLa]
  · simp [cacheTokensScopesAux, hu, jsString, getItem_setItem, hReSc, hReLa]
  · simp [cacheTokensScopesAux, hu, jsString, getItem_setItem, CognitoConstants.SPACE]
  · simp [cacheTokensScopesAux, hu, jsString, getItem_setItem, hLaSc]
  · intro key h1 h2 h3 h4 h5
    simp [cacheTokensScopesAux, hu, jsString, getItem_setItem, h1, h2, h3, h4, h5]

/-- A concrete session whose access token resolves to subject `user1`
under `decW`. -/
def sessW : CognitoAuthSession :=
  { idToken := ⟨some "IDJWT"⟩, accessToken := ⟨some "ATJWT"⟩,
    refreshToken := ⟨some "RTJWT"⟩, tokenScopes := ["openid", "email"], state := none }

/-- A concrete orchestrator state holding `sessW`, with an unrelated cache
entry and a client-supplied username that must not be used by the cache
write. -/
def stW9 : CognitoAuth :=
  { stImplicit with
    signInUserSession := some sessW,
    username := some "clientSupplied",
    storage := [("unrelated.key", "keep")] }

theorem cacheTokensScopes_username_witness :
    cacheTokensScopes decW stW9 = some (cacheTokensScopesAux decW stW9 sessW) ∧
    (cacheTokensScopesAux decW stW9 sessW).username = some "user1" ∧
    cacheTokensScopesAux decW { stW9 with username := some "other" } sessW =
      cacheTokensScopesAux decW stW9 sessW ∧
    (cacheTokensScopesAux decW stW9 sessW).storage.getItem
      "CognitoIdentityServiceProvider.client.user1.idToken" = some "IDJWT" ∧
    (cacheTokensScopesAux decW stW9 sessW).storage.getItem
      "CognitoIdentityServiceProvider.client.LastAuthUser" = some "user1" ∧
    (cacheTokensScopesAux decW stW9 sessW).storage.getItem "unrelated.key" = some "keep" := by
  have h := cacheTokensScopes_username_from_access_token decW stW9 sessW "user1"
    (some "other") rfl rfl
  exact ⟨h.1, h.2.1, h.2.2.1, h.2.2.2.1, h.2.2.2.2.2.2.2.1,
    (h.2.2.2.2.2.2.2.2 "unrelated.key" (by decide) (by decide) (by decide) (by decide)
      (by decide)).trans (by decide)⟩

/-! ## C8 -/

/-- A concrete state for sign-out: user `alice` signed in, with her five
cache keys present plus another user's entry. -/
def stW8 : CognitoAuth :=
  { stImplicit with
    username := some "alice",
    storage := [("CognitoIdentityServiceProvider.client.alice.idToken", "ID1"),
      ("CognitoIdentityServiceProvider.client.alice.accessToken", "AT1"),
      ("CognitoIdentityServiceProvider.client.alice.refreshToken", "RT1"),
      ("CognitoIdentityServiceProvider.client.alice.tokenScopesString", "openid"),
      ("CognitoIdentityServiceProvider.client.LastAuthUser", "alice"),
      ("CognitoIdentityServiceProvider.client.bob.idToken", "BOBID")] }

/-- C8 counterexample: `signOut` does not clear the held Session to an
empty Session — it assigns JS `null` (no Session at all). -/
theorem signOut_nulls_session_counterexample :
    (signOut stW8).1.signInUserSession ≠ some emptyAuthSession ∧
    (signOut stW8).1.signInUserSession = none := by
  refine ⟨?_, ?_⟩
  · simp [signOut, clearCachedTokensScopes]
  · simp [signOut, clearCachedTokensScopes]

/-- C8 (amended): `signOut` builds the sign-out URL and redirects the user
agent to it, sets the held Session to JS `null` (rather than an empty
Session), and removes exactly the five cache keys belonging to the current
username (idToken, accessToken, refreshToken, tokenScopesString and the
client-scoped LastAuthUser pointer), leaving every other cache entry
unchanged. -/
theorem signOut_clears_cache (st : CognitoAuth) :
    (signOut st).1.signInUserSession = none ∧
    (signOut st).2 = ⟨[getFQDNSignOut st], [], []⟩ ∧
    (∀ key, key ∈ [
        "CognitoIdentityServiceProvider." ++ st.clientId ++ "." ++ jsString st.username ++ ".idToken",
        "CognitoIdentityServiceProvider." ++ st.clientId ++ "." ++ jsString st.username ++ ".accessToken",
        "CognitoIdentityServiceProvider." ++ st.clientId ++ "." ++ jsString st.username ++ ".refreshToken",
        "CognitoIdentityServiceProvider." ++ st.clientId ++ ".LastAuthUser",
        "CognitoIdentityServiceProvider." ++ st.clientId ++ "." ++ jsString st.username ++ ".tokenScopesString"] →
      (signOut st).1.storage.getItem key = none) ∧
    (∀ key, key ∉ [
        "CognitoIdentityServiceProvider." ++ st.clientId ++ "." ++ jsString st.username ++ ".idToken",
        "CognitoIdentityServiceProvider." ++ st.clientId ++ "." ++ jsString st.username ++ ".accessToken",
        "CognitoIdentityServiceProvider." ++ st.clientId ++ "." ++ jsString st.username ++ ".refreshToken",
        "CognitoIdentityServiceProvider." ++ st.clientId ++ ".LastAuthUser",
        "CognitoIdentityServiceProvider." ++ st.clientId ++ "." ++ jsString st.username ++ ".tokenScopesString"] →
      (signOut st).1.storage.getItem key = st.storage.getItem key) := by
  refine ⟨by simp [signOut, clearCachedTokensScopes], by simp [signOut], ?_, ?_⟩
  · intro key hk
    simp only [List.mem_cons, List.not_mem_nil, or_false] at hk
    rcases hk with h | h | h | h | h <;> subst h <;>
      simp [signOut, clearCachedTokensScopes, getItem_removeItem]
  · intro key hk
    simp only [List.mem_cons, List.not_mem_nil, or_false] at hk
    push_neg at hk
    obtain ⟨h1, h2, h3, h4, h5⟩ := hk
    simp [signOut, clearCachedTokensScopes, getItem_removeItem, h1, h2, h3, h4, h5]

theorem signOut_clears_cache_witness :
    (signOut stW8).1.storage.getItem "CognitoIdentityServiceProvider.client.alice.idToken" =
      none ∧
    (signOut stW8).1.storage.getItem "CognitoIdentityServiceProvider.client.LastAuthUser" =
      none ∧
    (signOut stW8).1.storage.getItem "CognitoIdentityServiceProvider.client.bob.idToken" =
      some "BOBID" ∧
    (signOut stW8).2 = ⟨[getFQDNSignOut stW8], [], []⟩ := by
  have h := signOut_clears_cache stW8
  refine ⟨?_, ?_, ?_, h.2.1⟩
  · exact h.2.2.1 _ (by decide)
  · exact h.2.2.1 _ (by decide)
  · exact (h.2.2.2 _ (by decide)).trans (by decide)

/-! ## C7 -/

theorem fold_https (x : String) : "https" ++ ("://" ++ x) = "https://" ++ x := by
  rw [← String.append_assoc]; rfl

theorem fold_ruri1 (x : String) : "redirect_uri" ++ ("=" ++ x) = "redirect_uri=" ++ x := by
  rw [← String.append_assoc]; rfl

theorem fold_ruri2 (x : String) : "?" ++ ("redirect_uri=" ++ x) = "?redirect_uri=" ++ x := by
  rw [← String.append_assoc]; rfl

theorem fold_ruri3 (x : String) :
    "oauth2/authorize" ++ ("?redirect_uri=" ++ x) = "oauth2/authorize?redirect_uri=" ++ x := by
  rw [← String.append_assoc]; rfl

theorem fold_ruri4 (x : String) :
    "/" ++ ("oauth2/authorize?redirect_uri=" ++ x) = "/oauth2/authorize?redirect_uri=" ++ x := by
  rw [← String.append_assoc]; rfl

theorem fold_rt1 (x : String) : "response_type" ++ ("=" ++ x) = "response_type=" ++ x := by
  rw [← String.append_assoc]; rfl

theorem fold_rt2 (x : String) : "&" ++ ("response_type=" ++ x) = "&response_type=" ++ x := by
  rw [← String.append_assoc]; rfl

theorem fold_cid1 (x : String) : "client_id" ++ ("=" ++ x) = "client_id=" ++ x := by
  rw [← String.append_assoc]; rfl

theorem fold_cid2 (x : String) : "&" ++ ("client_id=" ++ x) = "&client_id=" ++ x := by
  rw [← String.append_assoc]; rfl

theorem fold_st1 (x : String) : "state" ++ ("=" ++ x) = "state=" ++ x := by
  rw [← String.append_assoc]; rfl

theorem fold_st2 (x : String) : "&" ++ ("state=" ++ x) = "&state=" ++ x := by
  rw [← String.append_assoc]; rfl

theorem fold_sc1 (x : String) : "scope" ++ ("=" ++ x) = "scope=" ++ x := by
  rw [← String.append_assoc]; rfl

theorem fold_sc2 (x : String) : "&" ++ ("scope=" ++ x) = "&scope=" ++ x := by
  rw [← String.append_assoc]; rfl

theorem fold_idp1 (x : String) :
    "identity_provider" ++ ("=" ++ x) = "identity_provider=" ++ x := by
  rw [← String.append_assoc]; rfl

theorem fold_idp2 (x : String) :
    "&" ++ ("identity_provider=" ++ x) = "&identity_provider=" ++ x := by
  rw [← String.append_assoc]; rfl

theorem fold_ucd1 (x : String) :
    "userContextData" ++ ("=" ++ x) = "userContextData=" ++ x := by
  rw [← String.append_assoc]; rfl

theorem fold_ucd2 (x : String) :
    "&" ++ ("userContextData=" ++ x) = "&userContextData=" ++ x := by
  rw [← String.append_assoc]; rfl

/-- C7: the sign-in URL is assembled as scheme, provider domain, the fixed
authorize path, then the query parameters in exactly the order
redirect_uri (percent-encoded), response_type, client_id, state, scope
(space-joined, percent-encoded), then identity_provider only when a
non-empty identity provider is configured, then userContextData only when
context data is available. -/
theorem getFQDNSignIn_url_layout (rand : Nat → Nat) (st : CognitoAuth)
    (sess : CognitoAuthSession) :
    (getFQDNSignInAux rand st sess).2 =
      "https://" ++ st.appWebDomain ++ "/oauth2/authorize?redirect_uri=" ++
      encodeURIComponent st.redirectUriSignIn ++ "&response_type=" ++ st.responseType ++
      "&client_id=" ++ st.clientId ++ "&state=" ++
      (match st.state with
        | some s => s
        | none => generateRandomString CognitoConstants.STATELENGTH
            CognitoConstants.STATEORIGINSTRING rand) ++
      "&scope=" ++ encodeURIComponent (String.intercalate " " sess.tokenScopes) ++
      (match st.identityProvider with
        | some idp => if idp = "" then "" else "&identity_provider=" ++ idp
        | none => "") ++
      (match getUserContextData st with
        | some d => if d = "" then "" else "&userContextData=" ++ d
        | none => "") := by
  cases hst : st.state <;>
    cases hidp : st.identityProvider <;>
      cases hflag : st.advancedSecurityDataCollectionFlag <;>
        cases hcd : st.contextData <;>
          simp [getFQDNSignInAux, getUserContextData, getSpaceSeperatedScopeString,
            hst, hidp, hflag, hcd, jsString,
            CognitoConstants.DOMAIN_SCHEME, CognitoConstants.COLONDOUBLESLASH,
            CognitoConstants.SLASH, CognitoConstants.DOMAIN_PATH_SIGNIN,
            CognitoConstants.QUESTIONMARK, CognitoConstants.DOMAIN_QUERY_PARAM_REDIRECT_URI,
            CognitoConstants.EQUALSIGN, CognitoConstants.AMPERSAND,
            CognitoConstants.DOMAIN_QUERY_PARAM_RESPONSE_TYPE, CognitoConstants.CLIENT_ID,
            CognitoConstants.STATE, CognitoConstants.SCOPE, CognitoConstants.SPACE,
            CognitoConstants.DOMAIN_QUERY_PARAM_IDENTITY_PROVIDER,
            CognitoConstants.DOMAIN_QUERY_PARAM_USERCONTEXTDATA,
            String.append_assoc, fold_https, fold_ruri1, fold_ruri2, fold_ruri3, fold_ruri4,
            fold_rt1, fold_rt2, fold_cid1, fold_cid2, fold_st1, fold_st2, fold_sc1, fold_sc2,
            fold_idp1, fold_idp2, fold_ucd1, fold_ucd2]

/-! ## C1 -/

/-- A claims decoder under which every present token has expiration 100
and subject `u`. -/
def dec0 : JwtDecoder := ⟨fun _ => some 100, fun _ => some "u"⟩

/-- A fixed randomness oracle (unused: the state is already set). -/
def rand0 : Nat → Nat := fun _ => 0

/-- The session held at entry of `getSession`: invalid (no tokens), with
the configured scope set `{openid}`. -/
def sessHeld : CognitoAuthSession :=
  { idToken := ⟨none⟩, accessToken := ⟨none⟩, refreshToken := ⟨none⟩,
    tokenScopes := ["openid"], state := none }

/-- A state whose cache holds, for user `u`, valid tokens under the scope
string `email`, while the configured scope set is `{openid}`. -/
def stC1 : CognitoAuth :=
  { clientId := "c", appWebDomain := "d", tokenScopesArray := ["openid"],
    redirectUriSignIn := "r", redirectUriSignOut := "o", identityProvider := none,
    userPoolId := none, responseType := "token",
    storage := [("CognitoIdentityServiceProvider.c.u.idToken", "IDTOK"),
      ("CognitoIdentityServiceProvider.c.u.accessToken", "ACCTOK"),
      ("CognitoIdentityServiceProvider.c.u.refreshToken", "R"),
      ("CognitoIdentityServiceProvider.c.u.tokenScopesString", "email")],
    username := some "u", signInUserSession := some sessHeld, state := some "S",
    hasUserhandler := false, advancedSecurityDataCollectionFlag := false,
    contextData := none }

/-- The session `getSession` reloads from the cache of `stC1`: valid
tokens carrying the scope set `{email}`. -/
def sessReloaded : CognitoAuthSession :=
  { idToken := ⟨some "IDTOK"⟩, accessToken := ⟨some "ACCTOK"⟩,
    refreshToken := ⟨some "R"⟩, tokenScopes := ["email"], state := none }

/-- C1: evaluation of `getSession` at a state where the scope set reloaded
from cache (`{email}`) differs from the configured scope set (`{openid}`):
because the code captures the comparison set from the session held at
entry (whose scopes equal the configured ones) before the reload, the
mismatch goes undetected — the call synchronously resolves the reloaded
session with its mismatching scopes, launches no redirect, and performs no
reset; the scope comparison the code actually executes succeeds while the
comparison against the reloaded scopes would fail. -/
theorem getSession_compares_preReload_scopes :
    ((getSession dec0 0 rand0 stC1).map fun r => (r.2.1.launched, r.2.2)) =
      some ([], SessionOutcome.resolvedSession sessReloaded) ∧
    ((getSession dec0 0 rand0 stC1).map fun r => r.1.signInUserSession) =
      some (some sessReloaded) ∧
    sessReloaded.tokenScopes.toFinset ≠ stC1.tokenScopesArray.toFinset ∧
    compareSets stC1.tokenScopesArray.toFinset sessHeld.tokenScopes.toFinset = true ∧
    compareSets stC1.tokenScopesArray.toFinset sessReloaded.tokenScopes.toFinset = false := by
  refine ⟨by decide, by decide, by decide, by decide, by decide⟩

theorem refreshExchange_updates_only_tokens_witness :
    (refreshExchangeStep decW rand0 stW9
        [("id_token", some "NEWID"), ("access_token", some "NEWAT")]).map (fun r => r.2.2) =
      some (ExchangeOutcome.ok
        { idToken := ⟨some "NEWID"⟩, accessToken := ⟨some "NEWAT"⟩,
          refreshToken := ⟨some "RTJWT"⟩, tokenScopes := ["openid", "email"],
          state := none }) := by
  have h := refreshExchange_updates_only_tokens decW rand0 stW9
    [("id_token", some "NEWID"), ("access_token", some "NEWAT")] sessW rfl (by decide)
  rw [h.1]
  decide
